import Mathlib

/-!
Shallow embedding of the biorem-compliance backend core
(src/backend/app/models/compliance.py, models/reminder.py, models/location.py,
models/contact.py, bot/scheduler.py, bot/handlers.py, utils/geo.py,
services/claude_vision.py) together with theorems settling the frozen claims.

Conventions of the embedding:
- Python `float` values carried through the compliance pipeline are modelled
  as `ℚ` (all concrete values appearing in the code and claims are exactly
  representable); Python `int` as `ℤ`.
- Python `datetime` values are modelled as integer seconds since an epoch;
  a calendar date is the integer day index `t / 86400` (Euclidean division),
  mirroring `datetime.date()`.
- A nullable column / optional value is `Option _`; an absent dictionary key
  is `none`.  Python truthiness on an optional float/int/bool (the source
  uses `if self.photo_latitude and ...`, not an `is None` check) is modelled
  by the `optRatTruthy` / `optIntTruthy` / `optBoolTruthy` functions below:
  `None` and the zero value are falsy.
- Methods mutating `self` become functions `Record → ... → Record`;
  `datetime.utcnow()` becomes an explicit `now` argument.
-/

namespace Biorem

/-- Python truthiness of an optional float column (None and 0.0 are falsy). -/
def optRatTruthy : Option ℚ → Bool
  | none => false
  | some x => x != 0

/-- Python truthiness of an optional int column (None and 0 are falsy). -/
def optIntTruthy : Option ℤ → Bool
  | none => false
  | some n => n != 0

/-- Python truthiness of an optional bool column (None and False are falsy). -/
def optBoolTruthy : Option Bool → Bool
  | none => false
  | some b => b

/-- Dictionary passed to `ComplianceRecord.set_ai_validation`
(`validation_result: dict`); each field is `none` when the key is absent, so
`dict.get(key, default)` is `Option.getD` and `dict.get(key)` is the field
itself.  In the reference flow it is `PhotoValidation.model_dump()`
(services/claude_vision.py), which carries the first seven keys and never
carries `appears_screenshot`. -/
structure ValidationDict where
  is_valid : Option Bool
  confidence : Option ℚ
  product_detected : Option Bool
  drainage_area_visible : Option Bool
  appears_recent : Option Bool
  issues : Option (List String)
  summary : Option String
  appears_screenshot : Option Bool
  deriving DecidableEq, Repr

/-- The columns of `ComplianceRecord` (models/compliance.py) that take part in
the scoring / verdict logic and in `handle_photo`.  Inert photo-file metadata
columns (photo_url, photo_file_id, photo_file_path, photo_size_bytes,
photo_width, photo_height, contact_notes, created_at, updated_at) are omitted:
nothing in the embedded logic reads them. -/
structure ComplianceRecord where
  id : ℤ
  location_id : Option ℤ
  contact_id : Option ℤ
  reminder_id : Option ℤ
  photo_received_at : Option ℤ
  photo_latitude : Option ℚ
  photo_longitude : Option ℚ
  photo_location_accuracy : Option ℚ
  expected_latitude : Option ℚ
  expected_longitude : Option ℚ
  authenticity_score : Option ℤ
  location_verified : Option Bool
  time_verified : Option Bool
  distance_from_expected : Option ℚ
  time_diff_minutes : Option ℤ
  ai_validation : Option ValidationDict
  ai_validated : Option Bool
  ai_confidence : Option ℚ
  ai_validated_at : Option ℤ
  ai_processing_time_ms : Option ℤ
  ai_product_detected : Option Bool
  ai_drainage_visible : Option Bool
  ai_appears_recent : Option Bool
  ai_appears_screenshot : Option Bool
  ai_issues : Option (List String)
  ai_summary : Option String
  manual_validated : Option Bool
  manual_validated_at : Option ℤ
  validated_by : Option ℤ
  validation_notes : Option String
  is_valid : Option Bool
  deriving DecidableEq, Repr

/-- Python truthiness of an optional string column (None and the empty
string are falsy). -/
def optStrTruthy : Option String → Bool
  | none => false
  | some s => s != ""

/-- A compliance record whose nullable columns are all NULL, as freshly
inserted rows leave every column not explicitly assigned. -/
def ComplianceRecord.blank (i : ℤ) : ComplianceRecord where
  id := i
  location_id := none
  contact_id := none
  reminder_id := none
  photo_received_at := none
  photo_latitude := none
  photo_longitude := none
  photo_location_accuracy := none
  expected_latitude := none
  expected_longitude := none
  authenticity_score := none
  location_verified := none
  time_verified := none
  distance_from_expected := none
  time_diff_minutes := none
  ai_validation := none
  ai_validated := none
  ai_confidence := none
  ai_validated_at := none
  ai_processing_time_ms := none
  ai_product_detected := none
  ai_drainage_visible := none
  ai_appears_recent := none
  ai_appears_screenshot := none
  ai_issues := none
  ai_summary := none
  manual_validated := none
  manual_validated_at := none
  validated_by := none
  validation_notes := none
  is_valid := none

/-- Factor 1 of `calculate_authenticity_score` (models/compliance.py lines
126-145): geolocation points together with the `location_verified` flag the
same branch assigns.  The guard is Python truthiness of the two captured
coordinates (`if self.photo_latitude and self.photo_longitude`), then an
`is not None` check on `distance_from_expected`. -/
def locationFactor (r : ComplianceRecord) : ℤ × Option Bool :=
  if optRatTruthy r.photo_latitude && optRatTruthy r.photo_longitude then
    match r.distance_from_expected with
    | some d =>
      if d ≤ 100 then (40, some true)
      else if d ≤ 300 then (30, some true)
      else if d ≤ 500 then (20, some true)
      else (0, some false)
    | none => (15, none)
  else (0, some false)

/-- Factor 2 of `calculate_authenticity_score` (lines 147-164): time-window
points together with the `time_verified` flag; branches on
`abs(self.time_diff_minutes)` after an `is not None` check. -/
def timeFactor (r : ComplianceRecord) : ℤ × Option Bool :=
  match r.time_diff_minutes with
  | some t =>
    if |t| ≤ 30 then (30, some true)
    else if |t| ≤ 120 then (20, some true)
    else if |t| ≤ 240 then (10, some true)
    else (0, some false)
  | none => (15, none)

/-- Factor 3 of `calculate_authenticity_score` (lines 166-173): AI-confidence
points, after an `is not None` check on `ai_confidence`. -/
def aiFactor (r : ComplianceRecord) : ℤ :=
  match r.ai_confidence with
  | some c =>
    if c ≥ 0.8 then 30
    else if c ≥ 0.6 then 20
    else if c ≥ 0.4 then 10
    else 0
  | none => 0

/-- Screenshot penalty of `calculate_authenticity_score` (lines 175-177):
50 points subtracted when `ai_appears_screenshot` is truthy. -/
def screenshotPenalty (r : ComplianceRecord) : ℤ :=
  if optBoolTruthy r.ai_appears_screenshot then 50 else 0

/-- ComplianceRecord.calculate_authenticity_score (models/compliance.py lines
117-179): recomputes the additive score from the four factors above, clamps it
to [0, 100] (`max(0, min(100, score))`) and stores it with the two verified
flags set by the location/time branches. -/
def calculate_authenticity_score (r : ComplianceRecord) : ComplianceRecord :=
  let lf := locationFactor r
  let tf := timeFactor r
  let score := lf.1 + tf.1 + aiFactor r - screenshotPenalty r
  { r with
    location_verified := lf.2
    time_verified := tf.2
    authenticity_score := some (max 0 (min 100 score)) }

/-- Guard of the automatic verdict in `set_ai_validation` (lines 112-114):
`self.authenticity_score and self.authenticity_score >= 80 and not
self.ai_appears_screenshot` — truthiness of the score (None/0 falsy), then
the 80 bound, then falsiness of the screenshot flag.  Note there is no check
of `manual_validated` here. -/
def autoVerdictGuard (r : ComplianceRecord) : Bool :=
  optIntTruthy r.authenticity_score
    && r.authenticity_score.getD 0 ≥ 80
    && !optBoolTruthy r.ai_appears_screenshot

/-- First half of `ComplianceRecord.set_ai_validation` (models/compliance.py
lines 95-106): stores the classifier dictionary field by field with the
`.get` defaults of the source, stamps `ai_validated_at`, and stores the
processing time when it is truthy. -/
def storeAIResult (r : ComplianceRecord) (vr : ValidationDict)
    (now : ℤ) (processing_time_ms : Option ℤ) : ComplianceRecord :=
  { r with
    ai_validation := some vr
    ai_validated := some (vr.is_valid.getD false)
    ai_confidence := some (vr.confidence.getD 0)
    ai_product_detected := vr.product_detected
    ai_drainage_visible := vr.drainage_area_visible
    ai_appears_recent := vr.appears_recent
    ai_appears_screenshot := some (vr.appears_screenshot.getD false)
    ai_issues := some (vr.issues.getD [])
    ai_summary := vr.summary
    ai_validated_at := some now
    ai_processing_time_ms :=
      if optIntTruthy processing_time_ms then processing_time_ms
      else r.ai_processing_time_ms }

/-- ComplianceRecord.set_ai_validation (models/compliance.py lines 93-115):
stores the classifier result, recomputes the authenticity score, and sets
`is_valid := True` when the automatic-verdict guard passes (otherwise leaves
`is_valid` untouched). -/
def set_ai_validation (r : ComplianceRecord) (vr : ValidationDict)
    (now : ℤ) (processing_time_ms : Option ℤ) : ComplianceRecord :=
  let r2 := calculate_authenticity_score (storeAIResult r vr now processing_time_ms)
  if autoVerdictGuard r2 then { r2 with is_valid := some true } else r2

/-- ComplianceRecord.set_manual_validation (models/compliance.py lines
181-187): records the manual review and unconditionally sets the final
verdict to the reviewer's value. -/
def set_manual_validation (r : ComplianceRecord) (valid : Bool)
    (validated_by_id : ℤ) (notes : Option String) (now : ℤ) : ComplianceRecord :=
  { r with
    manual_validated := some valid
    manual_validated_at := some now
    validated_by := some validated_by_id
    validation_notes := notes
    is_valid := some valid }

/-- ReminderStatus (models/reminder.py lines 9-17). -/
inductive ReminderStatus
  | pending
  | sent
  | completed
  | failed
  | escalated
  | cancelled
  | expired
  deriving DecidableEq, Repr

/-- Columns of ScheduledReminder (models/reminder.py); timestamps are
integer seconds, `timezone`/`notes` are inert and omitted. -/
structure ScheduledReminder where
  id : ℤ
  location_id : ℤ
  contact_id : Option ℤ
  scheduled_for : ℤ
  status : ReminderStatus
  sent_at : Option ℤ
  delivered_at : Option ℤ
  responded_at : Option ℤ
  escalation_count : ℤ
  escalated_at : Option ℤ
  escalated_to : Option ℤ
  compliance_record_id : Option ℤ
  telegram_message_id : Option String
  failure_reason : Option String
  deriving DecidableEq, Repr

/-- ScheduledReminder.mark_as_sent (models/reminder.py lines 80-85). -/
def mark_as_sent (r : ScheduledReminder) (now : ℤ)
    (message_id : Option String) : ScheduledReminder :=
  { r with
    status := .sent
    sent_at := some now
    telegram_message_id :=
      if optStrTruthy message_id then message_id else r.telegram_message_id }

/-- ScheduledReminder.mark_as_completed (models/reminder.py lines 87-91). -/
def mark_as_completed (r : ScheduledReminder) (now : ℤ)
    (compliance_record_id : ℤ) : ScheduledReminder :=
  { r with
    status := .completed
    responded_at := some now
    compliance_record_id := some compliance_record_id }

/-- ScheduledReminder.mark_as_escalated (models/reminder.py lines 93-98). -/
def mark_as_escalated (r : ScheduledReminder) (now : ℤ)
    (escalated_to_id : ℤ) : ScheduledReminder :=
  { r with
    status := .escalated
    escalation_count := r.escalation_count + 1
    escalated_at := some now
    escalated_to := some escalated_to_id }

/-- Settings used by the scheduler (config.py lines 67-68). -/
def ESCALATION_MINUTES : ℤ := 120

/-- Settings used by the scheduler (config.py line 68). -/
def MAX_ESCALATION_ATTEMPTS : ℤ := 3

/-- Selection predicate of the escalation sweep `check_escalations`
(bot/scheduler.py lines 247-254): status SENT, `sent_at` at most
`now - timedelta(minutes=ESCALATION_MINUTES)` (a NULL `sent_at` never
matches the SQL comparison), and fewer than MAX_ESCALATION_ATTEMPTS
escalations. -/
def escalationDue (now : ℤ) (r : ScheduledReminder) : Bool :=
  r.status == .sent
    && (match r.sent_at with
        | some t => decide (t ≤ now - ESCALATION_MINUTES * 60)
        | none => false)
    && decide (r.escalation_count < MAX_ESCALATION_ATTEMPTS)

/-- The set of reminders the escalation sweep picks up
(bot/scheduler.py lines 246-255). -/
def check_escalations_select (now : ℤ) (rs : List ScheduledReminder) :
    List ScheduledReminder :=
  rs.filter (escalationDue now)

/-- escalate_reminder (bot/scheduler.py lines 263-334) restricted to its
effect on the reminder row: with the location missing it returns without
change; with no supervisor found it silently sets ESCALATED and increments
the counter; with a supervisor it notifies and calls mark_as_escalated. -/
def escalate_reminder (r : ScheduledReminder) (now : ℤ)
    (locationFound : Bool) (supervisor : Option ℤ) : ScheduledReminder :=
  if !locationFound then r
  else
    match supervisor with
    | none =>
      { r with
        status := .escalated
        escalation_count := r.escalation_count + 1
        escalated_at := some now }
    | some supId => mark_as_escalated r now supId

/-- Every operation of the repository that mutates a ScheduledReminder row,
each bundled with the selection guard its caller imposes:
- dispatch success (send_pending_reminders, bot/scheduler.py 138-151,
  selects status PENDING; send_reminder line 207 marks SENT),
- dispatch failure (send_reminder lines 163-179 and 225-228 mark FAILED),
- complete (handle_photo, bot/handlers.py 497-571, selects status SENT),
- escalate (check_escalations, bot/scheduler.py 246-258, selects
  escalationDue rows and applies escalate_reminder),
- cancel (cancel_reminder, api/compliance.py 358-380, rejects any status
  other than PENDING before setting CANCELLED).
The generator only inserts new rows and is therefore not an operation on an
existing row. -/
inductive ReminderOp
  | dispatchOk (now : ℤ) (message_id : Option String)
  | dispatchFail (reason : String)
  | complete (now : ℤ) (compliance_record_id : ℤ)
  | escalate (now : ℤ) (locationFound : Bool) (supervisor : Option ℤ)
  | cancel
  deriving DecidableEq, Repr

/-- Application of one repository operation to a reminder row; an operation
whose selection guard does not match leaves the row untouched. -/
def applyOp (op : ReminderOp) (r : ScheduledReminder) : ScheduledReminder :=
  match op with
  | .dispatchOk now mid =>
    if r.status == .pending then mark_as_sent r now mid else r
  | .dispatchFail reason =>
    if r.status == .pending then
      { r with status := .failed, failure_reason := some reason }
    else r
  | .complete now crId =>
    if r.status == .sent then mark_as_completed r now crId else r
  | .escalate now locFound sup =>
    if escalationDue now r then escalate_reminder r now locFound sup else r
  | .cancel =>
    if r.status == .pending then { r with status := .cancelled } else r

/-- A sequence of repository operations applied in order. -/
def applyOps (ops : List ReminderOp) (r : ScheduledReminder) : ScheduledReminder :=
  ops.foldl (fun r op => applyOp op r) r

/-- ContactRole (models/contact.py lines 10-15). -/
inductive ContactRole
  | admin
  | supervisor
  | operador
  | readonly
  deriving DecidableEq, Repr

/-- Columns of Contact used by the embedded flows (models/contact.py).  The
Photo-Guard location attributes (last_known_latitude, last_known_longitude,
last_location_at) are read and written by bot/handlers.py and created as
database columns by the migrations, but are absent from the Contact model
under src/; they are modelled from the spec (§3: last-known location and
timestamp, nullable, used as fallback evidence coordinate). -/
structure Contact where
  id : ℤ
  client_id : ℤ
  role : ContactRole
  telegram_id : Option String
  active : Bool
  last_known_latitude : Option ℚ
  last_known_longitude : Option ℚ
  last_location_at : Option ℤ
  deriving DecidableEq, Repr

/-- Modelled from the spec: `Contact.has_recent_location(minutes)` is called
by bot/handlers.py but not defined on the Contact model under src/.  Per
spec §3 the contact carries a nullable last-known location with its
timestamp; recency means the timestamp lies within the given number of
minutes before now. -/
def has_recent_location (c : Contact) (now minutes : ℤ) : Bool :=
  match c.last_location_at with
  | some t => decide (now - t ≤ minutes * 60)
  | none => false

/-- Columns of Location used by the embedded flows (models/location.py).
`reminder_time` is seconds within the day (the Python Time column guarantees
a value in [0, 86400)); `reminder_days` is the set of isoweekday digits of
the comma-separated string (default "1,2,3,4,5"), with `none` for NULL and
`some []` for the empty string, both falsy. -/
structure Location where
  id : ℤ
  client_id : ℤ
  latitude : Option ℚ
  longitude : Option ℚ
  product_id : Option ℤ
  frequency_days : ℤ
  reminder_time : Option ℤ
  reminder_days : Option (List ℤ)
  last_compliance_at : Option ℤ
  last_compliance_by : Option ℤ
  active : Bool
  deriving DecidableEq, Repr

/-- Calendar date (day index) of a timestamp, as datetime.date(). -/
def dateOf (t : ℤ) : ℤ := Int.ediv t 86400

/-- date.isoweekday() of a day index (1 = Monday .. 7 = Sunday); day 0 of
the epoch is a Thursday. -/
def isoweekday (day : ℤ) : ℤ := (day + 3) % 7 + 1

/-- The database state the embedded flows read and write, plus the fresh
primary keys the session assigns on insert. -/
structure DBState where
  locations : List Location
  contacts : List Contact
  reminders : List ScheduledReminder
  compliance_records : List ComplianceRecord
  next_reminder_id : ℤ
  next_compliance_id : ℤ
  deriving DecidableEq, Repr

/-- Frequency gate of the generator (bot/scheduler.py lines 60-64): when a
last compliance is recorded and fewer than frequency_days have elapsed since
its date, the location is skipped. -/
def freqSkip (today : ℤ) (loc : Location) : Bool :=
  match loc.last_compliance_at with
  | some t => decide (today - dateOf t < loc.frequency_days)
  | none => false

/-- Weekday gate of the generator (bot/scheduler.py lines 66-69): when
reminder_days is truthy and today's isoweekday is not among its digits, the
location is skipped. -/
def weekdaySkip (today : ℤ) (loc : Location) : Bool :=
  match loc.reminder_days with
  | some ds => if ds.isEmpty then false else !ds.contains (isoweekday today)
  | none => false

/-- Contact query of the generator (bot/scheduler.py lines 71-80): contacts
of the location's client that are active and have a Telegram id, in stable
table order. -/
def clientContacts (contacts : List Contact) (loc : Location) : List Contact :=
  contacts.filter fun c =>
    c.client_id == loc.client_id && c.active && c.telegram_id.isSome

/-- Predicate of the existing-reminder query of the generator
(bot/scheduler.py lines 93-103): same location, scheduled within today's
day, status not CANCELLED. -/
def existsToday (today : ℤ) (loc : Location) (r : ScheduledReminder) : Bool :=
  r.location_id == loc.id
    && decide (today * 86400 ≤ r.scheduled_for)
    && decide (r.scheduled_for < (today + 1) * 86400)
    && r.status != .cancelled

/-- The reminder row inserted by the generator (bot/scheduler.py lines
108-114). -/
def newReminder (rid : ℤ) (loc : Location) (c : Contact)
    (sf : ℤ) : ScheduledReminder where
  id := rid
  location_id := loc.id
  contact_id := some c.id
  scheduled_for := sf
  status := .pending
  sent_at := none
  delivered_at := none
  responded_at := none
  escalation_count := 0
  escalated_at := none
  escalated_to := none
  compliance_record_id := none
  telegram_message_id := none
  failure_reason := none

/-- One iteration of the location loop of generate_daily_reminders
(bot/scheduler.py lines 59-116) acting on the accumulated (reminders, next
primary key).  The existing-reminder query uses scalar_one_or_none, which
raises when more than one row matches; the embedding tests mere existence,
and the theorems relying on this step carry the at-most-one hypothesis under
which the two agree.  `reminder_time or time(9, 0)` is None-coalescing
(time objects are always truthy), hence `Option.getD` with 09:00. -/
def generateStep (today : ℤ) (contacts : List Contact)
    (acc : List ScheduledReminder × ℤ) (loc : Location) :
    List ScheduledReminder × ℤ :=
  if freqSkip today loc then acc
  else if weekdaySkip today loc then acc
  else
    match clientContacts contacts loc with
    | [] => acc
    | c :: _ =>
      if (acc.1.filter (existsToday today loc)).isEmpty then
        (acc.1 ++ [newReminder acc.2 loc c
            (today * 86400 + loc.reminder_time.getD 32400)],
          acc.2 + 1)
      else acc

/-- generate_daily_reminders (bot/scheduler.py lines 37-119) for a given
day: folds the location step over the active locations that have an
assigned product. -/
def generate_daily_reminders (today : ℤ) (s : DBState) : DBState :=
  let locs := s.locations.filter fun l => l.active && l.product_id.isSome
  let acc := locs.foldl (generateStep today s.contacts) (s.reminders, s.next_reminder_id)
  { s with reminders := acc.1, next_reminder_id := acc.2 }

/-- A location eligible for reminder creation on the given day over the
given state: it is an active location with a product, passes the frequency
and weekday gates, its client has a linked contact, and no non-cancelled
reminder is scheduled for it today. -/
def eligible (today : ℤ) (s : DBState) (loc : Location) : Prop :=
  loc ∈ s.locations ∧ loc.active = true ∧ loc.product_id.isSome = true ∧
    freqSkip today loc = false ∧ weekdaySkip today loc = false ∧
    clientContacts s.contacts loc ≠ [] ∧
    (s.reminders.filter (existsToday today loc)).isEmpty = true

/-- Number of PENDING reminders of a location scheduled within the given
day. -/
def pendingTodayCount (today : ℤ) (rs : List ScheduledReminder) (lid : ℤ) : ℕ :=
  rs.countP fun r =>
    r.location_id == lid
      && decide (today * 86400 ≤ r.scheduled_for)
      && decide (r.scheduled_for < (today + 1) * 86400)
      && r.status == .pending

/-- First reminder of the query in handle_photo (bot/handlers.py lines
497-506): the contact's SENT reminders ordered by scheduled_for, limit 1 —
the earliest scheduled_for (first in table order on ties). -/
def oldestSentReminder (rs : List ScheduledReminder) (contactId : ℤ) :
    Option ScheduledReminder :=
  (rs.filter fun r => r.contact_id == some contactId && r.status == .sent).foldl
    (fun best r =>
      match best with
      | none => some r
      | some b => if r.scheduled_for < b.scheduled_for then some r else best)
    none

/-- handle_photo (bot/handlers.py lines 474-623) as a state transition.
Arguments beyond the state: the submitting contact's id (already resolved
from the Telegram user), the current time, the location payload held in the
conversation context (context.user_data["photo_location"]) and the location
attached to the message, if any.  The haversine call on the captured and
expected float coordinates is injected as `dist`; the haversine function
itself is analysed separately as haversine_distance.  The asynchronous
Claude-Vision task started at the end (validate_photo_async) is a separate
transition (set_ai_validation).  The transition completes the selected
reminder and inserts the compliance record; no Location row is written. -/
def handle_photo (dist : ℚ → ℚ → ℚ → ℚ → ℚ) (s : DBState) (contactId : ℤ)
    (now : ℤ) (ctxLocation : Option (ℚ × ℚ))
    (msgLocation : Option (ℚ × ℚ)) : DBState :=
  match s.contacts.find? (fun c => c.id == contactId) with
  | none => s
  | some contact =>
    let pending := oldestSentReminder s.reminders contactId
    let compliance0 : ComplianceRecord :=
      { ComplianceRecord.blank s.next_compliance_id with
        location_id := pending.map (fun r => r.location_id)
        contact_id := some contactId
        reminder_id := pending.map (fun r => r.id)
        photo_received_at := some now }
    let compliance1 :=
      match ctxLocation with
      | some (la, lo) =>
        { compliance0 with photo_latitude := some la, photo_longitude := some lo }
      | none =>
        if has_recent_location contact now 10 then
          { compliance0 with
            photo_latitude := contact.last_known_latitude
            photo_longitude := contact.last_known_longitude }
        else
          match msgLocation with
          | some (la, lo) =>
            { compliance0 with
              photo_latitude := some la, photo_longitude := some lo }
          | none => compliance0
    let compliance2 :=
      match pending with
      | some rem =>
        if rem.location_id != 0 then
          match s.locations.find? (fun l => l.id == rem.location_id) with
          | some loc =>
            if optRatTruthy loc.latitude && optRatTruthy loc.longitude then
              let c := { compliance1 with
                expected_latitude := loc.latitude
                expected_longitude := loc.longitude }
              if optRatTruthy c.photo_latitude && optRatTruthy c.photo_longitude then
                let d := dist (c.photo_latitude.getD 0) (c.photo_longitude.getD 0)
                  (loc.latitude.getD 0) (loc.longitude.getD 0)
                { c with distance_from_expected := some d }
              else c
            else compliance1
          | none => compliance1
        else compliance1
      | none => compliance1
    let compliance3 :=
      match pending with
      | some rem =>
        { compliance2 with
          time_diff_minutes := some (Int.tdiv (now - rem.scheduled_for) 60) }
      | none => compliance2
    let reminders :=
      match pending with
      | some rem =>
        s.reminders.map fun r =>
          if r.id == rem.id then
            { r with
              status := .completed
              responded_at := some now
              compliance_record_id := some compliance3.id }
          else r
      | none => s.reminders
    { s with
      compliance_records := s.compliance_records ++ [compliance3]
      next_compliance_id := s.next_compliance_id + 1
      reminders := reminders }

/-- Error taxonomy of spec §7 relevant to the distance function. -/
inductive GeoError
  | validationError
  deriving DecidableEq, Repr

/-- math.radians. -/
noncomputable def radians (x : ℝ) : ℝ := x * Real.pi / 180

/-- math.atan2, by its standard case analysis on the signs of the
arguments. -/
noncomputable def atan2 (y x : ℝ) : ℝ :=
  if 0 < x then Real.arctan (y / x)
  else if x < 0 ∧ 0 ≤ y then Real.arctan (y / x) + Real.pi
  else if x < 0 ∧ y < 0 then Real.arctan (y / x) - Real.pi
  else if x = 0 ∧ 0 < y then Real.pi / 2
  else if x = 0 ∧ y < 0 then -(Real.pi / 2)
  else 0

/-- haversine_distance (utils/geo.py lines 6-38): converts the inputs to
radians, applies the haversine formula with mean Earth radius 6,371,000 m
and returns the distance in metres.  The body contains no validation of the
inputs and no failure branch, so the result is always `Except.ok`. -/
noncomputable def haversine_distance (lat1 lon1 lat2 lon2 : ℝ) :
    Except GeoError ℝ :=
  let R : ℝ := 6371000
  let lat1_rad := radians lat1
  let lat2_rad := radians lat2
  let delta_lat := radians (lat2 - lat1)
  let delta_lon := radians (lon2 - lon1)
  let a := Real.sin (delta_lat / 2) ^ 2 +
    Real.cos lat1_rad * Real.cos lat2_rad * Real.sin (delta_lon / 2) ^ 2
  let c := 2 * atan2 (Real.sqrt a) (Real.sqrt (1 - a))
  Except.ok (R * c)

/-- Fallback classifier result built by every failure branch of
`validate_compliance_photo` (services/claude_vision.py lines 171-231): JSON
parse error, connection error, rate limit, API status error or any other
exception all return `PhotoValidation(is_valid=False, confidence=0.0,
product_detected=False, drainage_area_visible=False, appears_recent=False,
issues=[issue], summary=summary)`, whose `model_dump()` carries no
`appears_screenshot` key. -/
def failureValidation (issue summary : String) : ValidationDict where
  is_valid := some false
  confidence := some 0
  product_detected := some false
  drainage_area_visible := some false
  appears_recent := some false
  issues := some [issue]
  summary := some summary
  appears_screenshot := none

/-- A successful classifier dictionary: high confidence, all checks passed,
as produced by `PhotoValidation.model_dump()` for a clearly valid photo. -/
def goodValidation : ValidationDict where
  is_valid := some true
  confidence := some 0.9
  product_detected := some true
  drainage_area_visible := some true
  appears_recent := some true
  issues := some []
  summary := some "ok"
  appears_screenshot := none

/-- Concrete record for the manual-override replay scenario: captured
coordinates 50 m from the expected ones, photo 10 minutes after the
reminder. -/
def overrideReplayRecord : ComplianceRecord :=
  { ComplianceRecord.blank 2 with
    photo_latitude := some 19.4
    photo_longitude := some (-99.1)
    distance_from_expected := some 50
    time_diff_minutes := some 10 }

/-- Concrete record for the no-coordinate / no-reminder scenario: every
nullable column NULL. -/
def bareRecord : ComplianceRecord := ComplianceRecord.blank 1

/-- A SENT reminder whose age at time 1000000 is exactly the escalation
threshold: sent_at = 1000000 − 120·60 = 992800. -/
def thresholdReminder : ScheduledReminder where
  id := 11
  location_id := 1
  contact_id := some 1
  scheduled_for := 990000
  status := .sent
  sent_at := some 992800
  delivered_at := none
  responded_at := none
  escalation_count := 0
  escalated_at := none
  escalated_to := none
  compliance_record_id := none
  telegram_message_id := none
  failure_reason := none

/-- An already escalated reminder, for the escalation-invariant witness. -/
def escalatedReminder : ScheduledReminder :=
  { thresholdReminder with
    id := 12
    status := .escalated
    escalation_count := 1
    escalated_at := some 1000000
    escalated_to := some 2 }

/-- The location of the evidence-submission scenario: active, with a
product, and with no compliance recorded yet. -/
def photoLocation1 : Location where
  id := 1
  client_id := 1
  latitude := none
  longitude := none
  product_id := some 4
  frequency_days := 7
  reminder_time := some 32400
  reminder_days := some [1, 2, 3, 4, 5]
  last_compliance_at := none
  last_compliance_by := none
  active := true

/-- The linked operator contact of the evidence-submission scenario. -/
def photoContact1 : Contact where
  id := 1
  client_id := 1
  role := .operador
  telegram_id := some "111"
  active := true
  last_known_latitude := none
  last_known_longitude := none
  last_location_at := none

/-- The SENT reminder the evidence submission answers. -/
def photoReminder1 : ScheduledReminder where
  id := 5
  location_id := 1
  contact_id := some 1
  scheduled_for := 999000
  status := .sent
  sent_at := some 999100
  delivered_at := none
  responded_at := none
  escalation_count := 0
  escalated_at := none
  escalated_to := none
  compliance_record_id := none
  telegram_message_id := some "77"
  failure_reason := none

/-- State of the evidence-submission scenario: one location, one linked
contact, one SENT reminder awaiting its evidence. -/
def photoState1 : DBState where
  locations := [photoLocation1]
  contacts := [photoContact1]
  reminders := [photoReminder1]
  compliance_records := []
  next_reminder_id := 6
  next_compliance_id := 1

/-- A generator scenario: one active location with a product due today
(day 0, a Thursday, isoweekday 4), one linked contact, no reminders yet. -/
def genLocation1 : Location where
  id := 1
  client_id := 1
  latitude := none
  longitude := none
  product_id := some 4
  frequency_days := 7
  reminder_time := some 32400
  reminder_days := some [4]
  last_compliance_at := none
  last_compliance_by := none
  active := true

/-- State of the generator scenario. -/
def genState1 : DBState where
  locations := [genLocation1]
  contacts := [photoContact1]
  reminders := []
  compliance_records := []
  next_reminder_id := 1
  next_compliance_id := 1

end Biorem

namespace Biorem

/-- Location points never exceed 40 (every branch of the first factor of
calculate_authenticity_score awards at most 40). -/
theorem locationFactor_fst_le (r : ComplianceRecord) : (locationFactor r).1 ≤ 40 := by
  unfold locationFactor
  split
  · split
    · split
      · norm_num
      · split
        · norm_num
        · split <;> norm_num
    · norm_num
  · norm_num

/-- Time points never exceed 30 (every branch of the second factor of
calculate_authenticity_score awards at most 30). -/
theorem timeFactor_fst_le (r : ComplianceRecord) : (timeFactor r).1 ≤ 30 := by
  unfold timeFactor
  split
  · split
    · norm_num
    · split
      · norm_num
      · split <;> norm_num
  · norm_num

/-- C7: for every combination of inputs, the authenticity score recomputed by
calculate_authenticity_score is stored, and it lies in [0, 100] — even when
the −50 screenshot penalty drives the raw sum negative, because the source
clamps with max(0, min(100, score)). -/
theorem calculate_authenticity_score_in_range (r : ComplianceRecord) :
    ∃ n : ℤ, (calculate_authenticity_score r).authenticity_score = some n ∧
      0 ≤ n ∧ n ≤ 100 := by
  refine ⟨_, rfl, le_max_left 0 _, ?_⟩
  exact max_le (by norm_num) (min_le_left 100 _)

/-- C4, counterexample: for the record with no captured coordinate, no
reminder association and classifier confidence 0.9, the recomputed
authenticity score is not 60 (it is 45: the no-coordinate branch awards 0
location points, not 15). -/
theorem bare_record_score_ne_60 :
    (set_ai_validation bareRecord goodValidation 1000 (some 5)).authenticity_score
      ≠ some 60 := by
  norm_num [set_ai_validation, storeAIResult, calculate_authenticity_score,
    locationFactor, timeFactor, aiFactor, screenshotPenalty, autoVerdictGuard,
    optRatTruthy, optIntTruthy, optBoolTruthy, goodValidation, bareRecord,
    ComplianceRecord.blank]

/-- C4, amended: for an EvidenceRecord with no captured coordinate, no
reminder association, and classifier confidence 0.9, the recomputed
authenticity score equals 45 (0 location + 15 time + 30 AI) and the final
verdict stays null (pending). -/
theorem no_coordinate_no_reminder_score_45 (r : ComplianceRecord)
    (v : ValidationDict) (now : ℤ) (pt : Option ℤ)
    (hlat : r.photo_latitude = none) (hlon : r.photo_longitude = none)
    (htime : r.time_diff_minutes = none) (hvalid : r.is_valid = none)
    (hconf : v.confidence = some 0.9)
    (hshot : v.appears_screenshot = none) :
    (set_ai_validation r v now pt).authenticity_score = some 45 ∧
      (set_ai_validation r v now pt).is_valid = none := by
  norm_num [set_ai_validation, storeAIResult, calculate_authenticity_score,
    locationFactor, timeFactor, aiFactor, screenshotPenalty, autoVerdictGuard,
    optRatTruthy, optIntTruthy, optBoolTruthy, hlat, hlon, htime, hvalid,
    hconf, hshot]

/-- C4, witness for the amended theorem at the concrete bare record. -/
theorem no_coordinate_no_reminder_score_45_witness :
    (set_ai_validation bareRecord goodValidation 1000 (some 5)).authenticity_score
        = some 45 ∧
      (set_ai_validation bareRecord goodValidation 1000 (some 5)).is_valid = none :=
  no_coordinate_no_reminder_score_45 bareRecord goodValidation 1000 (some 5)
    rfl rfl rfl rfl rfl rfl

/-- C2: the code contradicts the claim (and its own comment that manual
validation is definitive): after a manual override with verdict false, a
replayed set_ai_validation with a high-confidence, non-screenshot result
(score 100 ≥ 80) sets is_valid back to true, because the automatic path in
set_ai_validation (models/compliance.py lines 112-115) never checks
manual_validated. -/
theorem manual_override_lost_on_replay :
    (set_manual_validation overrideReplayRecord false 7 none 200).is_valid
        = some false ∧
      (set_ai_validation
          (set_manual_validation overrideReplayRecord false 7 none 200)
          goodValidation 300 (some 5)).manual_validated = some false ∧
      (set_ai_validation
          (set_manual_validation overrideReplayRecord false 7 none 200)
          goodValidation 300 (some 5)).is_valid = some true := by
  norm_num [set_ai_validation, storeAIResult, set_manual_validation,
    calculate_authenticity_score, locationFactor, timeFactor, aiFactor,
    screenshotPenalty, autoVerdictGuard, optRatTruthy, optIntTruthy,
    optBoolTruthy, goodValidation, overrideReplayRecord, ComplianceRecord.blank]

/-- C3, counterexample: when the oracle call fails, the classifier fields do
not remain unset — the failure branch stores the fallback result, so
ai_confidence becomes 0.0 (and ai_validated false) instead of staying NULL. -/
theorem oracle_failure_sets_classifier_fields :
    (set_ai_validation bareRecord
        (failureValidation "Error de conexión con el servicio de IA"
          "No se pudo conectar al servicio de validación")
        100 (some 5)).ai_confidence ≠ none := by
  norm_num [set_ai_validation, storeAIResult, calculate_authenticity_score,
    locationFactor, timeFactor, aiFactor, screenshotPenalty, autoVerdictGuard,
    optRatTruthy, optIntTruthy, optBoolTruthy, failureValidation, bareRecord,
    ComplianceRecord.blank]
  simp

/-- C3, amended: if the Vision Oracle call fails, validate_compliance_photo
returns a fallback result whose application records the failure issue and
sets the classifier fields to sentinel values (confidence 0.0, booleans
false) rather than leaving them unset; the automatic verdict path runs but
can never reach the 80-point bar (the AI factor contributes 0, so the score
is at most 70), hence the record's final verdict stays null (pending
review) — an oracle failure never sets the verdict to accepted or
rejected. -/
theorem autoVerdictGuard_false_of_zero_confidence (r : ComplianceRecord)
    (hc : r.ai_confidence = some 0) (hs : r.ai_appears_screenshot = some false) :
    autoVerdictGuard (calculate_authenticity_score r) = false := by
  have hl := locationFactor_fst_le r
  have ht := timeFactor_fst_le r
  have hai : aiFactor r = 0 := by norm_num [aiFactor, hc]
  have hpen : screenshotPenalty r = 0 := by
    simp [screenshotPenalty, optBoolTruthy, hs]
  have hlt : max 0 (min 100 ((locationFactor r).1 + (timeFactor r).1 +
      aiFactor r - screenshotPenalty r)) < 80 := by
    have : min 100 ((locationFactor r).1 + (timeFactor r).1 +
        aiFactor r - screenshotPenalty r) ≤ 70 := by
      refine le_trans (min_le_right _ _) ?_
      omega
    have := max_le (show (0:ℤ) ≤ 70 by norm_num) this
    omega
  simp only [autoVerdictGuard, calculate_authenticity_score, optIntTruthy]
  have : ¬ (max 0 (min 100 ((locationFactor r).1 + (timeFactor r).1 +
      aiFactor r - screenshotPenalty r)) ≥ 80) := by omega
  simp [this]

theorem oracle_failure_leaves_verdict_null (r : ComplianceRecord)
    (issue summary : String) (now : ℤ) (pt : Option ℤ)
    (hvalid : r.is_valid = none) :
    (set_ai_validation r (failureValidation issue summary) now pt).is_valid
        = none ∧
      (set_ai_validation r (failureValidation issue summary) now pt).ai_validated
        = some false ∧
      (set_ai_validation r (failureValidation issue summary) now pt).ai_confidence
        = some 0 ∧
      (set_ai_validation r (failureValidation issue summary) now pt).ai_issues
        = some [issue] := by
  have hguard := autoVerdictGuard_false_of_zero_confidence
    (storeAIResult r (failureValidation issue summary) now pt)
    (by simp [storeAIResult, failureValidation])
    (by simp [storeAIResult, failureValidation])
  simp only [set_ai_validation, hguard, Bool.false_eq_true, if_false]
  simp [calculate_authenticity_score, storeAIResult, failureValidation, hvalid]

/-- C3, witness for the amended theorem at a concrete failure result. -/
theorem oracle_failure_leaves_verdict_null_witness :
    (set_ai_validation bareRecord
        (failureValidation "Error de conexión con el servicio de IA"
          "No se pudo conectar al servicio de validación") 100 (some 5)).is_valid
        = none ∧
      (set_ai_validation bareRecord
        (failureValidation "Error de conexión con el servicio de IA"
          "No se pudo conectar al servicio de validación") 100 (some 5)).ai_validated
        = some false ∧
      (set_ai_validation bareRecord
        (failureValidation "Error de conexión con el servicio de IA"
          "No se pudo conectar al servicio de validación") 100 (some 5)).ai_confidence
        = some 0 ∧
      (set_ai_validation bareRecord
        (failureValidation "Error de conexión con el servicio de IA"
          "No se pudo conectar al servicio de validación") 100 (some 5)).ai_issues
        = some ["Error de conexión con el servicio de IA"] :=
  oracle_failure_leaves_verdict_null bareRecord
    "Error de conexión con el servicio de IA"
    "No se pudo conectar al servicio de validación" 100 (some 5) rfl

/-- C10: a captured latitude or longitude equal to exactly 0.0 is treated as
absent by calculate_authenticity_score — Python truthiness on the coordinate
(`if self.photo_latitude and self.photo_longitude`) makes the guard false, so
even with a distance within 500 m the record gets 0 location points
(the stored score is exactly the time, AI and penalty terms) and
location_verified is set to false. -/
theorem zero_coordinate_treated_as_absent (r : ComplianceRecord) (d : ℚ)
    (h0 : r.photo_latitude = some 0 ∨ r.photo_longitude = some 0)
    (hd : r.distance_from_expected = some d) (hle : d ≤ 500) :
    (calculate_authenticity_score r).location_verified = some false ∧
      (calculate_authenticity_score r).authenticity_score =
        some (max 0 (min 100 ((timeFactor r).1 + aiFactor r - screenshotPenalty r))) := by
  have hloc : locationFactor r = (0, some false) := by
    unfold locationFactor
    rcases h0 with h | h <;>
      simp [optRatTruthy, h]
  simp [calculate_authenticity_score, hloc]

/-- C10, witness at a concrete zero-latitude record 50 m from the expected
coordinate. -/
theorem zero_coordinate_treated_as_absent_witness :
    (calculate_authenticity_score
        { ComplianceRecord.blank 9 with
          photo_latitude := some 0
          photo_longitude := some 20
          distance_from_expected := some 50 }).location_verified = some false ∧
      (calculate_authenticity_score
        { ComplianceRecord.blank 9 with
          photo_latitude := some 0
          photo_longitude := some 20
          distance_from_expected := some 50 }).authenticity_score =
        some (max 0 (min 100
          ((timeFactor { ComplianceRecord.blank 9 with
              photo_latitude := some 0
              photo_longitude := some 20
              distance_from_expected := some 50 }).1 +
            aiFactor { ComplianceRecord.blank 9 with
              photo_latitude := some 0
              photo_longitude := some 20
              distance_from_expected := some 50 } -
            screenshotPenalty { ComplianceRecord.blank 9 with
              photo_latitude := some 0
              photo_longitude := some 20
              distance_from_expected := some 50 }))) :=
  zero_coordinate_treated_as_absent
    { ComplianceRecord.blank 9 with
      photo_latitude := some 0
      photo_longitude := some 20
      distance_from_expected := some 50 } 50 (Or.inl rfl) rfl (by norm_num)

/-- A reminder the escalation sweep selects has status SENT. -/
theorem escalationDue_status_sent (now : ℤ) (r : ScheduledReminder)
    (h : escalationDue now r = true) : r.status = .sent := by
  unfold escalationDue at h
  simp only [Bool.and_eq_true, beq_iff_eq] at h
  exact h.1.1

/-- One repository operation preserves the escalation-count invariant: the
count stays at most 1, and a count of 1 is only reached in status
ESCALATED. -/
theorem applyOp_escalation_inv (op : ReminderOp) (r : ScheduledReminder)
    (h1 : r.escalation_count ≤ 1)
    (h2 : r.escalation_count = 1 → r.status = .escalated) :
    (applyOp op r).escalation_count ≤ 1 ∧
      ((applyOp op r).escalation_count = 1 → (applyOp op r).status = .escalated) := by
  cases op with
  | dispatchOk now mid =>
    by_cases hp : r.status = .pending
    · have hc : r.escalation_count ≠ 1 := fun hc => by
        rw [h2 hc] at hp; exact ReminderStatus.noConfusion hp
      simp only [applyOp, hp, mark_as_sent]
      simp only [beq_self_eq_true, if_true]
      exact ⟨h1, fun hcc => absurd hcc hc⟩
    · simp only [applyOp, beq_iff_eq, hp, if_false]
      exact ⟨h1, h2⟩
  | dispatchFail reason =>
    by_cases hp : r.status = .pending
    · have hc : r.escalation_count ≠ 1 := fun hc => by
        rw [h2 hc] at hp; exact ReminderStatus.noConfusion hp
      simp only [applyOp, hp, beq_self_eq_true, if_true]
      exact ⟨h1, fun hcc => absurd hcc hc⟩
    · simp only [applyOp, beq_iff_eq, hp, if_false]
      exact ⟨h1, h2⟩
  | complete now crId =>
    by_cases hp : r.status = .sent
    · have hc : r.escalation_count ≠ 1 := fun hc => by
        rw [h2 hc] at hp; exact ReminderStatus.noConfusion hp
      simp only [applyOp, hp, mark_as_completed, beq_self_eq_true, if_true]
      exact ⟨h1, fun hcc => absurd hcc hc⟩
    · simp only [applyOp, beq_iff_eq, hp, if_false]
      exact ⟨h1, h2⟩
  | escalate now locFound sup =>
    by_cases hdue : escalationDue now r = true
    · have hsent := escalationDue_status_sent now r hdue
      have hc : r.escalation_count ≠ 1 := fun hc => by
        rw [h2 hc] at hsent; exact ReminderStatus.noConfusion hsent
      have hc0 : r.escalation_count ≤ 0 := by omega
      simp only [applyOp, hdue, if_true, escalate_reminder]
      cases locFound with
      | false => simpa using ⟨h1, h2⟩
      | true =>
        cases sup with
        | none =>
          simp only [Bool.not_true, Bool.false_eq_true, if_false]
          exact ⟨by omega, fun _ => by simp⟩
        | some supId =>
          simp only [Bool.not_true, Bool.false_eq_true, if_false, mark_as_escalated]
          exact ⟨by omega, fun _ => by simp⟩
    · simp only [applyOp, hdue, if_false]
      exact ⟨h1, h2⟩
  | cancel =>
    by_cases hp : r.status = .pending
    · have hc : r.escalation_count ≠ 1 := fun hc => by
        rw [h2 hc] at hp; exact ReminderStatus.noConfusion hp
      simp only [applyOp, hp, beq_self_eq_true, if_true]
      exact ⟨h1, fun hcc => absurd hcc hc⟩
    · simp only [applyOp, beq_iff_eq, hp, if_false]
      exact ⟨h1, h2⟩

/-- A sequence of repository operations preserves the escalation-count
invariant. -/
theorem applyOps_escalation_inv (ops : List ReminderOp) (r : ScheduledReminder)
    (h1 : r.escalation_count ≤ 1)
    (h2 : r.escalation_count = 1 → r.status = .escalated) :
    (applyOps ops r).escalation_count ≤ 1 := by
  induction ops generalizing r with
  | nil => exact h1
  | cons op ops ih =>
    have h := applyOp_escalation_inv op r h1 h2
    exact ih (applyOp op r) h.1 h.2

/-- C9: once a reminder's status is ESCALATED the escalation sweep never
selects it again (its filter requires status SENT), every repository
operation leaves the row unchanged (in particular none returns it to SENT),
and consequently any sequence of repository operations escalates a reminder
that starts with escalation_count 0 at most once — even though
MAX_ESCALATION_ATTEMPTS permits up to 3. -/
theorem escalated_reminder_terminal :
    (∀ (r : ScheduledReminder) (now : ℤ), r.status = .escalated →
        escalationDue now r = false) ∧
      (∀ (r : ScheduledReminder) (op : ReminderOp), r.status = .escalated →
        applyOp op r = r) ∧
      (∀ (r : ScheduledReminder) (ops : List ReminderOp),
        r.escalation_count = 0 → (applyOps ops r).escalation_count ≤ 1) := by
  refine ⟨?_, ?_, ?_⟩
  · intro r now h
    simp [escalationDue, h]
  · intro r op h
    cases op <;> simp [applyOp, escalationDue, h]
  · intro r ops h0
    refine applyOps_escalation_inv ops r (by omega) ?_
    intro hc
    exfalso
    omega

/-- C9, witness: the sweep ignores the concrete ESCALATED reminder, a cancel
leaves it unchanged, and a dispatch-complete-escalate-escalate sequence on
the threshold reminder escalates it only once. -/
theorem escalated_reminder_terminal_witness :
    escalationDue 1000000 escalatedReminder = false ∧
      applyOp .cancel escalatedReminder = escalatedReminder ∧
      (applyOps [.escalate 1000000 true (some 2), .escalate 1100000 true (some 3)]
        thresholdReminder).escalation_count ≤ 1 :=
  ⟨escalated_reminder_terminal.1 escalatedReminder 1000000 rfl,
    escalated_reminder_terminal.2.1 escalatedReminder .cancel rfl,
    escalated_reminder_terminal.2.2 thresholdReminder
      [.escalate 1000000 true (some 2), .escalate 1100000 true (some 3)] rfl⟩

/-- C5, counterexample: the sweep filter is `sent_at <= now − threshold`, so
the reminder whose age exactly equals the escalation threshold IS selected
and escalated — the claim says it is not. -/
theorem threshold_reminder_selected :
    check_escalations_select 1000000 [thresholdReminder] = [thresholdReminder] ∧
      (applyOp (.escalate 1000000 true (some 2)) thresholdReminder).status
        = .escalated := by
  decide

/-- C5, amended: the escalation sweep escalates a SENT reminder with
escalation_count below MAX_ESCALATION_ATTEMPTS exactly when its sent_at is
at most now − ESCALATION_MINUTES: a reminder whose age equals the threshold
is escalated, as is any older one; only strictly younger reminders are
not. -/
theorem escalation_threshold_inclusive (now : ℤ) (r : ScheduledReminder)
    (t : ℤ) (hs : r.status = .sent) (ht : r.sent_at = some t)
    (hc : r.escalation_count < MAX_ESCALATION_ATTEMPTS) :
    escalationDue now r = true ↔ t ≤ now - ESCALATION_MINUTES * 60 := by
  simp [escalationDue, hs, ht, hc]

/-- C5, witness for the amended theorem at the exact-threshold reminder. -/
theorem escalation_threshold_inclusive_witness :
    escalationDue 1000000 thresholdReminder = true ↔
      (992800 : ℤ) ≤ 1000000 - ESCALATION_MINUTES * 60 :=
  escalation_threshold_inclusive 1000000 thresholdReminder 992800 rfl rfl
    (by decide)

/-- C1: handle_photo fires the Complete transition — the contact's oldest
SENT reminder moves to COMPLETED with responded_at and the new
EvidenceRecord id recorded — but the Location row is left untouched: its
last_compliance_at stays NULL instead of being advanced to the evidence's
capture time 1000000.  The field is read by the generator's frequency gate
(bot/scheduler.py lines 61-63) yet no code path under src/ ever writes it,
so the cadence the spec describes can never engage. -/
theorem complete_does_not_advance_location_compliance :
    (handle_photo (fun _ _ _ _ => 0) photoState1 1 1000000
        (some ((19 : ℚ), (-99 : ℚ))) none).locations = photoState1.locations ∧
      photoState1.locations.map (fun l => l.last_compliance_at) = [none] ∧
      ((handle_photo (fun _ _ _ _ => 0) photoState1 1 1000000
          (some ((19 : ℚ), (-99 : ℚ))) none).reminders.map
        (fun r => (r.status, r.responded_at, r.compliance_record_id)))
        = [(.completed, some 1000000, some 1)] := by
  refine ⟨rfl, rfl, ?_⟩
  norm_num [handle_photo, photoState1, photoContact1, photoReminder1,
    photoLocation1, oldestSentReminder, has_recent_location, optRatTruthy,
    ComplianceRecord.blank]

/-- C6, counterexample: called with latitude 91 (outside [-90, 90]),
haversine_distance does not reject the input — no ValidationError arises,
the formula is evaluated as for any other input. -/
theorem out_of_range_latitude_not_rejected :
    haversine_distance 91 0 0 0 ≠ Except.error GeoError.validationError := by
  simp [haversine_distance]

/-- C6, amended: haversine_distance performs no range validation at all — for
every latitude and longitude, in range or not, it returns a distance value
and never raises a ValidationError (its body has no failure branch). -/
theorem haversine_accepts_all_inputs (lat1 lon1 lat2 lon2 : ℝ) :
    (haversine_distance lat1 lon1 lat2 lon2).isOk = true := rfl

/-- One generator step either leaves the accumulator unchanged or appends
the freshly created reminder and advances the primary key. -/
theorem generateStep_cases (today : ℤ) (cs : List Contact)
    (acc : List ScheduledReminder × ℤ) (loc : Location) :
    generateStep today cs acc loc = acc ∨
      ∃ c, generateStep today cs acc loc =
        (acc.1 ++ [newReminder acc.2 loc c
            (today * 86400 + loc.reminder_time.getD 32400)],
          acc.2 + 1) := by
  unfold generateStep
  split
  · exact Or.inl rfl
  · split
    · exact Or.inl rfl
    · split
      · exact Or.inl rfl
      · split
        · exact Or.inr ⟨_, rfl⟩
        · exact Or.inl rfl

/-- One generator step only appends to the accumulated reminder list. -/
theorem generateStep_append (today : ℤ) (cs : List Contact)
    (acc : List ScheduledReminder × ℤ) (loc : Location) :
    ∃ t, (generateStep today cs acc loc).1 = acc.1 ++ t := by
  rcases generateStep_cases today cs acc loc with h | ⟨c, h⟩
  · exact ⟨[], by rw [h, List.append_nil]⟩
  · exact ⟨_, by rw [h]⟩

/-- The generator fold only appends to the accumulated reminder list. -/
theorem foldl_generateStep_append (today : ℤ) (cs : List Contact)
    (ls : List Location) (acc : List ScheduledReminder × ℤ) :
    ∃ t, (ls.foldl (generateStep today cs) acc).1 = acc.1 ++ t := by
  induction ls generalizing acc with
  | nil => exact ⟨[], by rw [List.foldl_nil, List.append_nil]⟩
  | cons l ls ih =>
    obtain ⟨u, hu⟩ := generateStep_append today cs acc l
    obtain ⟨t, ht⟩ := ih (generateStep today cs acc l)
    exact ⟨u ++ t, by rw [List.foldl_cons, ht, hu, List.append_assoc]⟩

/-- A nonempty filter stays nonempty after appending rows. -/
theorem filter_isEmpty_false_append (p : ScheduledReminder → Bool)
    (a b : List ScheduledReminder) (h : (a.filter p).isEmpty = false) :
    ((a ++ b).filter p).isEmpty = false := by
  rw [List.filter_append]
  cases hfa : a.filter p with
  | nil => rw [hfa] at h; simp at h
  | cons x xs => simp [hfa]

/-- The reminder created for a location matches the generator's
existing-reminder query for that location on that day. -/
theorem existsToday_newReminder (today : ℤ) (loc : Location) (rid : ℤ)
    (c : Contact)
    (hrt : 0 ≤ loc.reminder_time.getD 32400 ∧ loc.reminder_time.getD 32400 < 86400) :
    existsToday today loc
      (newReminder rid loc c (today * 86400 + loc.reminder_time.getD 32400)) = true := by
  simp only [existsToday, newReminder, beq_self_eq_true, Bool.true_and,
    Bool.and_eq_true, decide_eq_true_eq]
  refine ⟨⟨by omega, by omega⟩, by simp⟩

/-- After a location with all gates open has been processed, the
existing-reminder query for it is nonempty. -/
theorem generateStep_exists_after (today : ℤ) (cs : List Contact)
    (acc : List ScheduledReminder × ℤ) (loc : Location)
    (hf : freqSkip today loc = false) (hw : weekdaySkip today loc = false)
    (hcs : clientContacts cs loc ≠ [])
    (hrt : 0 ≤ loc.reminder_time.getD 32400 ∧ loc.reminder_time.getD 32400 < 86400) :
    ((generateStep today cs acc loc).1.filter (existsToday today loc)).isEmpty
      = false := by
  unfold generateStep
  rw [hf, hw]
  simp only [Bool.false_eq_true, if_false]
  cases hcc : clientContacts cs loc with
  | nil => exact absurd hcc hcs
  | cons c cl =>
    by_cases hemp : (acc.1.filter (existsToday today loc)).isEmpty = true
    · simp only [hemp, if_true, List.filter_append,
        existsToday_newReminder today loc acc.2 c hrt, List.filter_cons]
      rw [List.isEmpty_iff] at hemp
      simp [hemp]
    · simp only [hemp, if_false]
      exact Bool.not_eq_true _ ▸ hemp

/-- Once a location with all gates open appears in the processed list, the
generator fold ends with a reminder matching its existing-reminder query. -/
theorem foldl_exists_after (today : ℤ) (cs : List Contact)
    (ls : List Location) (acc : List ScheduledReminder × ℤ) (loc : Location)
    (hmem : loc ∈ ls)
    (hf : freqSkip today loc = false) (hw : weekdaySkip today loc = false)
    (hcs : clientContacts cs loc ≠ [])
    (hrt : 0 ≤ loc.reminder_time.getD 32400 ∧ loc.reminder_time.getD 32400 < 86400) :
    ((ls.foldl (generateStep today cs) acc).1.filter (existsToday today loc)).isEmpty
      = false := by
  induction ls generalizing acc with
  | nil => cases hmem
  | cons l ls ih =>
    rw [List.foldl_cons]
    rcases List.mem_cons.mp hmem with heq | hmem'
    · subst heq
      obtain ⟨t, ht⟩ := foldl_generateStep_append today cs ls (generateStep today cs acc loc)
      rw [ht]
      exact filter_isEmpty_false_append _ _ _
        (generateStep_exists_after today cs acc loc hf hw hcs hrt)
    · exact ih (generateStep today cs acc l) hmem'

/-- A generator step is the identity when a gate is closed or the
existing-reminder query already matches. -/
theorem generateStep_id (today : ℤ) (cs : List Contact)
    (acc : List ScheduledReminder × ℤ) (loc : Location)
    (h : freqSkip today loc = true ∨ weekdaySkip today loc = true ∨
      clientContacts cs loc = [] ∨
      (acc.1.filter (existsToday today loc)).isEmpty = false) :
    generateStep today cs acc loc = acc := by
  unfold generateStep
  rcases h with h | h | h | h
  · rw [h]; simp
  · rw [h]; simp
  · cases hf : freqSkip today loc
    · simp only [Bool.false_eq_true, if_false]
      cases hw : weekdaySkip today loc
      · simp only [Bool.false_eq_true, if_false, h]
      · simp
    · simp
  · cases hf : freqSkip today loc
    · simp only [Bool.false_eq_true, if_false]
      cases hw : weekdaySkip today loc
      · simp only [Bool.false_eq_true, if_false]
        cases hcc : clientContacts cs loc with
        | nil => rfl
        | cons c cl => simp [h]
      · simp
    · simp

/-- A fold whose every step fixes the accumulator is the identity. -/
theorem foldl_generateStep_id (today : ℤ) (cs : List Contact)
    (ls : List Location) (acc : List ScheduledReminder × ℤ)
    (h : ∀ l ∈ ls, generateStep today cs acc l = acc) :
    ls.foldl (generateStep today cs) acc = acc := by
  induction ls with
  | nil => rfl
  | cons l ls ih =>
    rw [List.foldl_cons, h l (List.mem_cons_self l ls)]
    exact ih fun l' hl' => h l' (List.mem_cons_of_mem l hl')

/-- A row matched by the pending-today count is matched by the generator's
existing-reminder query. -/
theorem pendingTodayCount_zero_of_empty (today : ℤ)
    (rs : List ScheduledReminder) (loc : Location)
    (h : (rs.filter (existsToday today loc)).isEmpty = true) :
    pendingTodayCount today rs loc.id = 0 := by
  rw [List.isEmpty_iff, List.filter_eq_nil_iff] at h
  rw [pendingTodayCount, List.countP_eq_zero]
  intro r hr hp
  refine h r hr ?_
  simp only [Bool.and_eq_true, beq_iff_eq] at hp
  simp only [existsToday, Bool.and_eq_true, beq_iff_eq, bne_iff_ne]
  refine ⟨⟨⟨hp.1.1.1, hp.1.1.2⟩, hp.1.2⟩, ?_⟩
  rw [hp.2]
  exact fun hc => ReminderStatus.noConfusion hc

/-- The reminder created for a location is counted by the pending-today
count of that location. -/
theorem pendingToday_newReminder (today : ℤ) (loc : Location) (rid : ℤ)
    (c : Contact)
    (hrt : 0 ≤ loc.reminder_time.getD 32400 ∧ loc.reminder_time.getD 32400 < 86400) :
    (fun r : ScheduledReminder =>
        r.location_id == loc.id
          && decide (today * 86400 ≤ r.scheduled_for)
          && decide (r.scheduled_for < (today + 1) * 86400)
          && r.status == ReminderStatus.pending)
      (newReminder rid loc c (today * 86400 + loc.reminder_time.getD 32400)) = true := by
  simp only [newReminder, beq_self_eq_true, Bool.true_and, Bool.and_true,
    Bool.and_eq_true, decide_eq_true_eq]
  exact ⟨by omega, by omega⟩

/-- Rows created for other locations never change a location's pending-today
count: processing a list of locations free of the given id leaves the count
unchanged. -/
theorem foldl_pendingCount_of_not_mem (today : ℤ) (cs : List Contact)
    (ls : List Location) (acc : List ScheduledReminder × ℤ) (lid : ℤ)
    (hnm : lid ∉ ls.map fun l => l.id) :
    pendingTodayCount today ((ls.foldl (generateStep today cs) acc).1) lid
      = pendingTodayCount today acc.1 lid := by
  induction ls generalizing acc with
  | nil => rfl
  | cons l ls ih =>
    simp only [List.map_cons, List.mem_cons, not_or] at hnm
    rw [List.foldl_cons]
    rcases generateStep_cases today cs acc l with h | ⟨c, h⟩
    · rw [h, ih acc hnm.2]
    · rw [h, ih _ hnm.2]
      rw [pendingTodayCount, List.countP_append, List.countP_cons]
      simp only [newReminder, beq_iff_eq]
      have : ¬ (l.id = lid) := fun hc => hnm.1 hc.symm
      simp only [pendingTodayCount]
      simp [this]

/-- An eligible location processed along the generator fold ends with
exactly one pending reminder scheduled for today. -/
theorem foldl_pendingCount_one (today : ℤ) (cs : List Contact)
    (ls : List Location) (acc : List ScheduledReminder × ℤ) (loc : Location)
    (hnd : (ls.map fun l => l.id).Nodup) (hmem : loc ∈ ls)
    (hf : freqSkip today loc = false) (hw : weekdaySkip today loc = false)
    (hcs : clientContacts cs loc ≠ [])
    (hrt : 0 ≤ loc.reminder_time.getD 32400 ∧ loc.reminder_time.getD 32400 < 86400)
    (hempty : (acc.1.filter (existsToday today loc)).isEmpty = true) :
    pendingTodayCount today ((ls.foldl (generateStep today cs) acc).1) loc.id
      = 1 := by
  induction ls generalizing acc with
  | nil => cases hmem
  | cons l ls ih =>
    simp only [List.map_cons, List.nodup_cons] at hnd
    rw [List.foldl_cons]
    rcases List.mem_cons.mp hmem with heq | hmem'
    · subst heq
      have hstep : generateStep today cs acc loc =
          (acc.1 ++ [newReminder acc.2 loc
              ((clientContacts cs loc).headD photoContact1)
              (today * 86400 + loc.reminder_time.getD 32400)],
            acc.2 + 1) := by
        unfold generateStep
        rw [hf, hw]
        simp only [Bool.false_eq_true, if_false]
        cases hcc : clientContacts cs loc with
        | nil => exact absurd hcc hcs
        | cons c cl => simp [hempty]
      have hnm : loc.id ∉ ls.map fun l => l.id := hnd.1
      rw [hstep, foldl_pendingCount_of_not_mem today cs ls _ loc.id hnm]
      rw [pendingTodayCount, List.countP_append, List.countP_cons]
      have h0 : pendingTodayCount today acc.1 loc.id = 0 :=
        pendingTodayCount_zero_of_empty today acc.1 loc hempty
      rw [pendingTodayCount] at h0
      rw [h0]
      simp [pendingToday_newReminder today loc acc.2 _ hrt]
    · have hne : l.id ≠ loc.id := by
        intro hc
        exact hnd.1 (hc ▸ List.mem_map_of_mem (fun l => l.id) hmem')
      rcases generateStep_cases today cs acc l with h | ⟨c, h⟩
      · rw [h]; exact ih acc hnd.2 hmem' hempty
      · rw [h]
        refine ih _ hnd.2 hmem' ?_
        rw [List.filter_append]
        have : existsToday today loc (newReminder acc.2 l c
            (today * 86400 + l.reminder_time.getD 32400)) = false := by
          simp only [existsToday, newReminder]
          simp [hne]
        rw [List.isEmpty_iff] at hempty ⊢
        simp [this, hempty]

/-- C8: the daily generator is idempotent per location per calendar day —
running it twice on the same day over the same state leaves the state of the
first run unchanged, and each eligible location ends with exactly one
PENDING reminder scheduled for today, because on the second run the
existing-reminder check finds the reminder created by the first.  The
hypotheses are the database invariants under which the embedding matches the
source: distinct location primary keys, reminder_time a valid time of day,
and at most one matching row for the scalar_one_or_none query. -/
theorem generate_daily_reminders_idempotent (today : ℤ) (s : DBState)
    (loc : Location)
    (hids : (s.locations.map fun l => l.id).Nodup)
    (hrt : ∀ l ∈ s.locations,
      0 ≤ l.reminder_time.getD 32400 ∧ l.reminder_time.getD 32400 < 86400)
    (huniq : ∀ l ∈ s.locations,
      (s.reminders.filter (existsToday today l)).length ≤ 1)
    (helig : eligible today s loc) :
    generate_daily_reminders today (generate_daily_reminders today s)
        = generate_daily_reminders today s ∧
      pendingTodayCount today (generate_daily_reminders today s).reminders loc.id
        = 1 := by
  obtain ⟨hm, hact, hprod, hf, hw, hcs, hempty⟩ := helig
  have hlocs : (generate_daily_reminders today s).locations = s.locations := rfl
  have hconts : (generate_daily_reminders today s).contacts = s.contacts := rfl
  constructor
  · have hfix : ∀ l ∈ s.locations.filter (fun l => l.active && l.product_id.isSome),
        generateStep today s.contacts
          ((generate_daily_reminders today s).reminders,
            (generate_daily_reminders today s).next_reminder_id) l =
          ((generate_daily_reminders today s).reminders,
            (generate_daily_reminders today s).next_reminder_id) := by
      intro l hl
      by_cases hfl : freqSkip today l = true
      · exact generateStep_id _ _ _ _ (Or.inl hfl)
      · by_cases hwl : weekdaySkip today l = true
        · exact generateStep_id _ _ _ _ (Or.inr (Or.inl hwl))
        · by_cases hcl : clientContacts s.contacts l = []
          · exact generateStep_id _ _ _ _ (Or.inr (Or.inr (Or.inl hcl)))
          · refine generateStep_id _ _ _ _ (Or.inr (Or.inr (Or.inr ?_)))
            exact foldl_exists_after today s.contacts _ _ l hl
              (Bool.not_eq_true _ ▸ hfl) (Bool.not_eq_true _ ▸ hwl) hcl
              (hrt l (List.mem_of_mem_filter hl))
    have hfold := foldl_generateStep_id today s.contacts
      (s.locations.filter (fun l => l.active && l.product_id.isSome))
      ((generate_daily_reminders today s).reminders,
        (generate_daily_reminders today s).next_reminder_id) hfix
    calc generate_daily_reminders today (generate_daily_reminders today s)
        = { generate_daily_reminders today s with
            reminders :=
              ((s.locations.filter (fun l => l.active && l.product_id.isSome)).foldl
                (generateStep today s.contacts)
                ((generate_daily_reminders today s).reminders,
                  (generate_daily_reminders today s).next_reminder_id)).1
            next_reminder_id :=
              ((s.locations.filter (fun l => l.active && l.product_id.isSome)).foldl
                (generateStep today s.contacts)
                ((generate_daily_reminders today s).reminders,
                  (generate_daily_reminders today s).next_reminder_id)).2 } := rfl
      _ = generate_daily_reminders today s := by rw [hfold]
  · have hnd : ((s.locations.filter (fun l => l.active && l.product_id.isSome)).map
        fun l => l.id).Nodup :=
      List.Nodup.sublist
        (List.Sublist.map (fun l => l.id) (List.filter_sublist s.locations)) hids
    have hmem : loc ∈ s.locations.filter (fun l => l.active && l.product_id.isSome) :=
      List.mem_filter.mpr ⟨hm, by rw [hact, hprod]; rfl⟩
    exact foldl_pendingCount_one today s.contacts _
      (s.reminders, s.next_reminder_id) loc hnd hmem hf hw hcs
      (hrt loc hm) hempty

/-- C8, witness at the one-location generator scenario on day 0. -/
theorem generate_daily_reminders_idempotent_witness :
    generate_daily_reminders 0 (generate_daily_reminders 0 genState1)
        = generate_daily_reminders 0 genState1 ∧
      pendingTodayCount 0 (generate_daily_reminders 0 genState1).reminders
        genLocation1.id = 1 :=
  generate_daily_reminders_idempotent 0 genState1 genLocation1
    (by decide) (by decide) (by decide)
    ⟨List.mem_cons_self genLocation1 [], rfl, rfl, rfl, rfl,
      by decide, rfl⟩

end Biorem
